import Mathlib

/-!
Verification development for the aeg-portal-forge registration portal.

The embedding models:
- the `profiles` table and its constraints
  (migration 20250818102727, migration 20250819070102);
- the row-level-security policies on `profiles` (same migrations);
- the server-side pass-id generator `generate_user_pass_id`
  (migration 20250819070102, re-created with a stable search path later);
- the client form flow: `RegistrationForm.tsx` (step validation via the
  zod schemas, `saveStep`, `onStep1Submit`, `onStep2Submit`,
  `handleFileUpload` and the file-size gate of the photo field) and
  `ReviewPage.tsx` (`loadProfile` guard and `handleSave`).

Machine conventions: timestamps are naturals; SQL NULL is `Option`;
the PL/pgSQL `random()` draws are modelled as a supplied stream of
`Fin 36` values (the value of `floor(random() * 36)` at each call);
the unbounded `WHILE` regeneration loop is given explicit fuel, with
`none` standing for a run that did not terminate within the fuel.
-/

namespace AegPortal

/-- One row of `public.profiles` (migration 20250818102727, plus the
columns re-asserted by migration 20250819070102).  Nullable columns are
`Option`; `role` has SQL default `'user'`, `form_step` default `0`,
`is_form_submitted` default `false`. -/
structure Profile where
  user_id : String
  email : Option String
  name : Option String
  contact : Option String
  gender : Option String
  dob : Option String
  age : Option Nat
  district : Option String
  category : Option String
  highest_qualification : Option String
  passport_photo_url : Option String
  user_pass_id : Option String
  role : String
  form_step : Nat
  is_form_submitted : Bool
  created_at : Nat
  updated_at : Nat
deriving Repr, DecidableEq

/-- The profile store: the rows of `public.profiles`. -/
abbrev DB := List Profile

/-- The `category` CHECK constraint values and the zod category enum. -/
def categoryValues : List String :=
  ["Open", "OBC", "SC", "ST", "VJNT", "SEBC", "SBC"]

/-- The zod gender enum of `step1Schema`. -/
def genderValues : List String := ["male", "female", "other"]

/-- SQL CHECK `category IN (...)`: NULL passes a CHECK constraint. -/
def categoryOk : Option String → Bool
  | none => true
  | some c => categoryValues.contains c

/-- SQL CHECK `role IN ('user', 'admin')`. -/
def roleOk (r : String) : Bool := r = "user" || r = "admin"

/-- Row created by the `handle_new_user` trigger at signup:
`INSERT INTO public.profiles (user_id, email) VALUES (NEW.id, NEW.email)`
with the column defaults for everything else. -/
def newProfile (uid email : String) (t : Nat) : Profile :=
  { user_id := uid
    email := some email
    name := none
    contact := none
    gender := none
    dob := none
    age := none
    district := none
    category := none
    highest_qualification := none
    passport_photo_url := none
    user_pass_id := none
    role := "user"
    form_step := 0
    is_form_submitted := false
    created_at := t
    updated_at := t }

/-- `select('*').eq('user_id', uid).single()`: the row of the given user
(`user_id` is UNIQUE, so at most one row matches). -/
def findProfile (db : DB) (uid : String) : Option Profile :=
  db.find? (fun p => p.user_id = uid)

/-- Merge-on-`user_id` upsert, the Profile Store collaborator contract of
the spec (`upsertProfile(user_id, fields, form_step)`): if a row for
`uid` exists every matching row is rewritten by `f`, otherwise the fresh
row `mk` is inserted. -/
def upsertBy (db : DB) (uid : String) (f : Profile → Profile)
    (mk : Profile) : DB :=
  if db.any (fun p => p.user_id = uid) then
    db.map (fun p => if p.user_id = uid then f p else p)
  else
    db ++ [mk]

/-! ## Row-level security policies (migration 20250818102727) -/

/-- The SELECT policies on `profiles`, OR-ed as Postgres permissive
policies, with deny by default:
policy `Users can view their own profile` is `auth.uid() = user_id`;
policy `Admins can view all profiles` is
`EXISTS (SELECT 1 FROM profiles WHERE user_id = auth.uid() AND role =
admin)`, its subquery evaluated against the current store. -/
def canSelect (db : DB) (authUid : String) (row : Profile) : Bool :=
  (authUid = row.user_id)
    || db.any (fun p => p.user_id = authUid && p.role = "admin")

/-- The UPDATE policy `Users can update their own profile`:
`USING (auth.uid() = user_id)`, and with no WITH CHECK clause the USING
expression is also applied to the new row; the table CHECK constraints
on `category` and `role` are applied to the new row as well. -/
def rlsUpdateAllowed (authUid : String) (oldRow newRow : Profile) : Bool :=
  (authUid = oldRow.user_id) && (authUid = newRow.user_id)
    && categoryOk newRow.category && roleOk newRow.role

/-! ## Pass-id generator (`generate_user_pass_id`) -/

/-- The generator alphabet: `chars := 'ABCDEFGHIJKLMNOPQRSTUVWXYZ0123456789'`. -/
def passChars : String := "ABCDEFGHIJKLMNOPQRSTUVWXYZ0123456789"

/-- `substr(chars, i + 1, 1)` for a draw `i = floor(random() * 36)`
(the PL/pgSQL index `floor(random() * length(chars) + 1)` is 1-based). -/
def charOf (i : Fin 36) : Char := passChars.data.getD i.val 'A'

/-- One iteration of `FOR i IN 1..6 LOOP result := result || substr(...)`:
the 6-character candidate built from draws `start, ..., start + 5` of the
random stream. -/
def candidateAt (r : Nat → Fin 36) (start : Nat) : String :=
  String.mk ((List.range 6).map (fun j => charOf (r (start + j))))

/-- The pass ids already persisted: `SELECT 1 FROM public.profiles WHERE
user_pass_id = result` succeeds exactly for members of this list. -/
def persistedIds (db : DB) : List String :=
  db.filterMap (fun p => p.user_pass_id)

/-- `generate_user_pass_id` (migration 20250819070102): build a
candidate, and WHILE it already exists among the persisted
`user_pass_id` values regenerate from the next 6 draws; `fuel` bounds the
unbounded loop, `none` meaning the loop did not finish in `fuel` rounds. -/
def generate_user_pass_id (persisted : List String) (r : Nat → Fin 36) :
    Nat → Nat → Option String
  | 0, _ => none
  | fuel + 1, start =>
    let cand := candidateAt r start
    if persisted.contains cand then
      generate_user_pass_id persisted r fuel (start + 6)
    else
      some cand

/-! ## Review page (`ReviewPage.tsx`) -/

/-- Outcome of `ReviewPage.loadProfile`: either the page redirects to
`/register` (load error, missing row, or `profile.form_step < 2`), or it
stores the loaded profile for review/submission. -/
inductive ReviewLoad where
  | redirect
  | loaded (p : Profile)
deriving Repr, DecidableEq

/-- `ReviewPage.loadProfile`: fetch the row for `user.id`; on error or
when `!profile || profile.form_step < 2`, toast and navigate back to
`/register`; otherwise keep the profile for the review screen. -/
def reviewLoadProfile (db : DB) (uid : String) : ReviewLoad :=
  match findProfile db uid with
  | none => ReviewLoad.redirect
  | some p => if p.form_step < 2 then ReviewLoad.redirect else ReviewLoad.loaded p

/-- The UPDATE of `handleSave` guarded by the UNIQUE constraint on
`user_pass_id`: setting `user_pass_id = cand` on the rows of `uid` is
rejected (duplicate key) when some other row already holds `cand`;
otherwise the single update sets `is_form_submitted`, `user_pass_id` and
`updated_at` together (the `update_updated_at_column` trigger also
stamps `updated_at`). -/
def commitPass (db : DB) (uid : String) (cand : String) (now : Nat) :
    Except String DB :=
  if db.any (fun q => q.user_id ≠ uid && q.user_pass_id = some cand) then
    Except.error "duplicate key value violates unique constraint"
  else
    Except.ok (db.map (fun p =>
      if p.user_id = uid then
        { p with is_form_submitted := true
                 user_pass_id := some cand
                 updated_at := now }
      else p))

/-- `ReviewPage.handleSave`: call the `generate_user_pass_id` RPC; on RPC
failure throw (no update happens); otherwise run the single UPDATE that
sets `is_form_submitted: true` and `user_pass_id` together.  Any thrown
error is surfaced as a destructive toast and the store is unchanged. -/
def handleSave (db : DB) (uid : String) (r : Nat → Fin 36) (fuel : Nat)
    (now : Nat) : DB × Except String String :=
  match generate_user_pass_id (persistedIds db) r fuel 0 with
  | none => (db, Except.error "pass id generation failed")
  | some cand =>
    match commitPass db uid cand now with
    | Except.error e => (db, Except.error e)
    | Except.ok db2 => (db2, Except.ok cand)

/-! ## Registration form (`RegistrationForm.tsx`) -/

/-- The fields of `step1Schema`. -/
structure Step1Data where
  email : String
  name : String
  contact : String
  gender : String
  dob : String
deriving Repr, DecidableEq

/-- The fields of `step2Schema` (`passport_photo_url` is optional, the
empty string standing for the absent photo). -/
structure Step2Data where
  age : Nat
  district : String
  category : String
  highest_qualification : String
  passport_photo_url : String
deriving Repr, DecidableEq

/-- Split a character list at every occurrence of the separator, the
way the string split of the form code does. -/
def splitOnChar (sep : Char) : List Char → List (List Char)
  | [] => [[]]
  | c :: cs =>
    if c = sep then
      [] :: splitOnChar sep cs
    else
      match splitOnChar sep cs with
      | [] => [[c]]
      | g :: gs => (c :: g) :: gs

/-- Modelled from the spec: the email-format check of
`z.string().email()` comes from the zod library, which is not part of
this repository's sources; the spec only requires a valid email format.
Modelled as: a single `@` separating a nonempty local part from a
domain made of at least two nonempty dot-separated pieces. -/
def emailFormatValid (s : String) : Bool :=
  match splitOnChar '@' s.data with
  | [localPart, domain] =>
    (1 ≤ localPart.length)
      && 2 ≤ (splitOnChar '.' domain).length
      && (splitOnChar '.' domain).all (fun piece => 1 ≤ piece.length)
  | _ => false

/-- `step1Schema`: email format, `name.min(2)`, `contact.min(10)`,
gender in its enum, `dob.min(1)`. -/
def step1Valid (d : Step1Data) : Bool :=
  emailFormatValid d.email
    && decide (2 ≤ d.name.length)
    && decide (10 ≤ d.contact.length)
    && genderValues.contains d.gender
    && decide (1 ≤ d.dob.length)

/-- `step2Schema`: `age.min(18).max(100)`, `district.min(1)`, category in
its enum, `highest_qualification.min(1)`, photo optional. -/
def step2Valid (d : Step2Data) : Bool :=
  decide (18 ≤ d.age)
    && decide (d.age ≤ 100)
    && decide (1 ≤ d.district.length)
    && categoryValues.contains d.category
    && decide (1 ≤ d.highest_qualification.length)

/-- The row rewrite of `saveStep(step1Data, 1)`: spread the Step-1 fields
over the row, set `form_step := 1` and stamp `updated_at`. -/
def applyStep1 (d : Step1Data) (now : Nat) (p : Profile) : Profile :=
  { p with email := some d.email
           name := some d.name
           contact := some d.contact
           gender := some d.gender
           dob := some d.dob
           form_step := 1
           updated_at := now }

/-- The row rewrite of `saveStep(completeData, 2)` where `completeData`
spreads the current Step-1 form values and the Step-2 fields. -/
def applyStep12 (d1 : Step1Data) (d2 : Step2Data) (now : Nat)
    (p : Profile) : Profile :=
  { p with email := some d1.email
           name := some d1.name
           contact := some d1.contact
           gender := some d1.gender
           dob := some d1.dob
           age := some d2.age
           district := some d2.district
           category := some d2.category
           highest_qualification := some d2.highest_qualification
           passport_photo_url := some d2.passport_photo_url
           form_step := 2
           updated_at := now }

/-- `saveStep(step1Data, 1)`: upsert on `user_id`. -/
def saveStep1 (db : DB) (uid : String) (d : Step1Data) (now : Nat) : DB :=
  upsertBy db uid (applyStep1 d now) (applyStep1 d now (newProfile uid d.email now))

/-- `saveStep(completeData, 2)`: upsert on `user_id` of the merged
Step-1 + Step-2 data. -/
def saveStep12 (db : DB) (uid : String) (d1 : Step1Data) (d2 : Step2Data)
    (now : Nat) : DB :=
  upsertBy db uid (applyStep12 d1 d2 now)
    (applyStep12 d1 d2 now (newProfile uid d1.email now))

/-- `onStep1Submit` behind `step1Form.handleSubmit`: the resolver blocks
the handler on invalid data (state unchanged, field errors shown); on
valid data `saveStep` runs — `writeOk = false` models a failed upsert
(`saveStep` catches the error and only toasts) — and then
`setCurrentStep(2)` runs unconditionally.  Returns the store and the
controller's current step. -/
def submitStep1 (db : DB) (uid : String) (d : Step1Data) (cur : Nat)
    (writeOk : Bool) (now : Nat) : DB × Nat :=
  if step1Valid d then
    ((if writeOk then saveStep1 db uid d now else db), 2)
  else
    (db, cur)

/-- `onStep2Submit` behind `step2Form.handleSubmit`: on valid data save
the merged data and then `navigate(review)` unconditionally; on invalid
data nothing runs.  The Bool of the result records whether the
navigation to the review page happened. -/
def submitStep2 (db : DB) (uid : String) (d1 : Step1Data) (d2 : Step2Data)
    (writeOk : Bool) (now : Nat) : DB × Bool :=
  if step2Valid d2 then
    ((if writeOk then saveStep12 db uid d1 d2 now else db), true)
  else
    (db, false)

/-! ## Photo upload (`handleFileUpload` and the photo field) -/

/-- A selected file: its browser name, size in bytes, and an abstract
content tag. -/
structure UploadedFile where
  name : String
  size : Nat
  content : Nat
deriving Repr, DecidableEq

/-- The `passport-photos` bucket: path-to-content associations. -/
abbrev Storage := List (String × Nat)

/-- `file.name.split(dot).pop()`: the part after the last dot (the whole
name when there is no dot). -/
def fileExt (name : String) : String :=
  String.mk ((splitOnChar '.' name.data).getLastD [])

/-- `getPublicUrl(filePath)` of the storage client: the bucket URL with
the object path appended. -/
def publicUrl (path : String) : String :=
  "https://storage/passport-photos/" ++ path

/-- `upload(filePath, file, upsert: true)`: replace the object at
`filePath` if present (object paths are unique keys of the bucket),
create it otherwise. -/
def storeUpsert : Storage → String → Nat → Storage
  | [], path, c => [(path, c)]
  | e :: es, path, c =>
    if e.1 = path then (path, c) :: es else e :: storeUpsert es path c

/-- Object lookup in the bucket. -/
def lookupStore : Storage → String → Option Nat
  | [], _ => none
  | e :: es, path => if e.1 = path then some e.2 else lookupStore es path

/-- `storage.foldername(name)`: the `/`-separated path segments of an
object name except the last one (the folders above the file); empty for
a folderless name. -/
def foldername (path : String) : List String :=
  ((splitOnChar '/' path.data).dropLast).map String.mk

/-- The storage INSERT policy `Users can upload their own passport
photos` on the `passport-photos` bucket (migration 20250818102727):
`WITH CHECK (bucket_id = 'passport-photos' AND auth.uid()::text =
(storage.foldername(name))[1])`.  For a folderless object name the
array is empty, its first element is SQL NULL, and a NULL comparison
does not satisfy a WITH CHECK, so the insert is denied. -/
def storageInsertAllowed (authUid : String) (path : String) : Bool :=
  match foldername path with
  | [] => false
  | folder :: _ => folder = authUid

/-- `supabase.storage.from(passport-photos).upload(filePath, file,
upsert: true)` as guarded by the bucket policy: when the policy admits
the object name the object is written (replacing any object at that
path), otherwise the storage layer rejects the write. -/
def uploadToBucket (st : Storage) (authUid : String) (path : String)
    (content : Nat) : Except String Storage :=
  if storageInsertAllowed authUid path then
    Except.ok (storeUpsert st path content)
  else
    Except.error "new row violates row-level security policy"

/-- Observable outcome of selecting a photo file. -/
inductive PhotoOutcome where
  | rejectedTooLarge
  | uploadFailed (e : String)
  | uploaded
deriving Repr, DecidableEq

/-- The photo field `onChange` plus `handleFileUpload`: a file larger
than `1024 * 1024` bytes is rejected with an error toast before any
upload is attempted; otherwise the upload to the folderless path
`(user.id).(extension)` is attempted with upsert — on
`if (uploadError) throw uploadError` the error is surfaced as a
destructive toast and the form value is not set; only on upload success
does `setValue` store the public URL of that path.  Returns the bucket,
the form field value, and the outcome. -/
def onPhotoSelected (st : Storage) (formUrl : String) (uid : String)
    (file : UploadedFile) : Storage × String × PhotoOutcome :=
  if file.size > 1024 * 1024 then
    (st, formUrl, PhotoOutcome.rejectedTooLarge)
  else
    let path := uid ++ "." ++ fileExt file.name
    match uploadToBucket st uid path file.content with
    | Except.error e => (st, formUrl, PhotoOutcome.uploadFailed e)
    | Except.ok st2 => (st2, publicUrl path, PhotoOutcome.uploaded)

/-! ## Concrete fixtures used by witnesses and counterexamples -/

/-- A random stream cycling through the whole alphabet. -/
def rollStream : Nat → Fin 36 := fun n => ⟨n % 36, Nat.mod_lt _ (by decide)⟩

/-- A random stream that always draws index 0 (character `A`). -/
def aStream : Nat → Fin 36 := fun _ => ⟨0, by decide⟩

/-- A random stream that always draws index 35 (character `9`). -/
def zStream : Nat → Fin 36 := fun _ => ⟨35, by decide⟩

/-- The valid Step-1 input of the end-to-end scenario of the spec. -/
def dAsha : Step1Data :=
  { email := "a@x.com"
    name := "Asha Rao"
    contact := "9876543210"
    gender := "female"
    dob := "2000-01-01" }

/-- The valid Step-2 input of the end-to-end scenario of the spec. -/
def d2Asha : Step2Data :=
  { age := 24
    district := "Pune"
    category := "OBC"
    highest_qualification := "B.Sc."
    passport_photo_url := "" }

/-- An invalid Step-1 input: its contact has length 5. -/
def dBadContact : Step1Data := { dAsha with contact := "98765" }

/-! ## Helper lemmas -/

theorem charOf_mem (i : Fin 36) : charOf i ∈ passChars.data := by
  fin_cases i <;> decide

theorem candidateAt_length (r : Nat → Fin 36) (start : Nat) :
    (candidateAt r start).length = 6 := by
  simp [candidateAt, String.length]

theorem candidateAt_data_mem (r : Nat → Fin 36) (start : Nat) :
    ∀ c ∈ (candidateAt r start).data, c ∈ passChars.data := by
  intro c hc
  simp only [candidateAt, String.mk, List.mem_map] at hc
  obtain ⟨j, _, hj⟩ := hc
  exact hj ▸ charOf_mem _

theorem findProfile_mem {db : DB} {uid : String} {q : Profile}
    (h : findProfile db uid = some q) : q ∈ db ∧ q.user_id = uid := by
  unfold findProfile at h
  refine ⟨List.mem_of_find?_eq_some h, ?_⟩
  have := List.find?_some h
  simpa using this

theorem any_uid_of_findProfile {db : DB} {uid : String} {q : Profile}
    (h : findProfile db uid = some q) :
    db.any (fun p => p.user_id = uid) = true := by
  obtain ⟨hmem, hq⟩ := findProfile_mem h
  exact List.any_eq_true.mpr ⟨q, hmem, by simpa using hq⟩

theorem findProfile_map_update (db : DB) (uid : String)
    (f : Profile → Profile) (hf : ∀ p : Profile, (f p).user_id = p.user_id) :
    findProfile (db.map (fun p => if p.user_id = uid then f p else p)) uid
      = (findProfile db uid).map
          (fun p => if p.user_id = uid then f p else p) := by
  induction db with
  | nil => rfl
  | cons p ps ih =>
    by_cases hp : p.user_id = uid
    · simp [findProfile, List.find?_cons, hp, hf p]
    · simp only [List.map_cons, findProfile, List.find?_cons] at ih ⊢
      simp [hp, ih]

theorem findProfile_upsertBy_found {db : DB} {uid : String}
    {f : Profile → Profile} {mk : Profile} {q : Profile}
    (hf : ∀ p : Profile, (f p).user_id = p.user_id)
    (h : findProfile db uid = some q) :
    findProfile (upsertBy db uid f mk) uid = some (f q) := by
  have hany := any_uid_of_findProfile h
  have hq := (findProfile_mem h).2
  unfold upsertBy
  rw [if_pos hany, findProfile_map_update db uid f hf, h]
  simp [hq]

theorem mem_upsertBy {db : DB} {uid : String} {f : Profile → Profile}
    {mk : Profile} {q : Profile} (h : q ∈ upsertBy db uid f mk) :
    (∃ p ∈ db, q = f p ∧ p.user_id = uid)
      ∨ (∃ p ∈ db, q = p ∧ p.user_id ≠ uid)
      ∨ q = mk := by
  unfold upsertBy at h
  by_cases hany : db.any (fun p => p.user_id = uid) = true
  · rw [if_pos hany] at h
    obtain ⟨p, hp, hq⟩ := List.mem_map.mp h
    by_cases hu : p.user_id = uid
    · exact Or.inl ⟨p, hp, by simpa [hu] using hq.symm, hu⟩
    · exact Or.inr (Or.inl ⟨p, hp, by simpa [hu] using hq.symm, hu⟩)
  · rw [if_neg hany] at h
    rcases List.mem_append.mp h with hdb | hmk
    · refine Or.inr (Or.inl ⟨q, hdb, rfl, ?_⟩)
      intro hu
      exact hany (List.any_eq_true.mpr ⟨q, hdb, by simpa using hu⟩)
    · exact Or.inr (Or.inr (by simpa using hmk))

theorem lookupStore_storeUpsert_self (st : Storage) (path : String)
    (c : Nat) : lookupStore (storeUpsert st path c) path = some c := by
  induction st with
  | nil => simp [storeUpsert, lookupStore]
  | cons e es ih =>
    by_cases he : e.1 = path
    · simp [storeUpsert, lookupStore, he]
    · simp [storeUpsert, lookupStore, he, ih]

/-! ## Claim theorems -/

/-- Claim C3: whenever the pass-id issuer `generate_user_pass_id`
returns an identifier, that identifier has exactly 6 characters, every
character is drawn from the alphabet `A-Z0-9` (the uniform draw
`floor(random() * 36)` indexes the alphabet injectively), and the result
differs from every pass id persisted in the profile store at that
moment; on a collision the generator repeats with a fresh candidate. -/
theorem c3_pass_id_shape_and_freshness
    (persisted : List String) (r : Nat → Fin 36) (fuel start : Nat)
    (s : String) (h : generate_user_pass_id persisted r fuel start = some s) :
    s.length = 6
      ∧ (∀ c ∈ s.data, c ∈ passChars.data)
      ∧ s ∉ persisted
      ∧ Function.Injective charOf := by
  induction fuel generalizing start with
  | zero => exact absurd h (by simp [generate_user_pass_id])
  | succ n ih =>
    rw [generate_user_pass_id] at h
    by_cases hc : persisted.contains (candidateAt r start) = true
    · rw [if_pos hc] at h
      exact ih _ h
    · rw [if_neg hc] at h
      obtain rfl : candidateAt r start = s := by simpa using h
      refine ⟨candidateAt_length r start, candidateAt_data_mem r start, ?_, ?_⟩
      · intro hmem
        exact hc (by simpa [List.contains] using List.elem_eq_true_of_mem hmem)
      · decide

/-- Witness for C3: with an empty persisted set and the cycling stream,
the issuer returns `ABCDEF`, which has the claimed shape and freshness. -/
theorem c3_witness :
    "ABCDEF".length = 6
      ∧ (∀ c ∈ "ABCDEF".data, c ∈ passChars.data)
      ∧ "ABCDEF" ∉ ([] : List String)
      ∧ Function.Injective charOf :=
  c3_pass_id_shape_and_freshness [] rollStream 1 0 "ABCDEF" (by decide)

/-- Claim C8: a read of a profile row succeeds exactly when the
requesting identity owns the row or the requester's own profile row has
the admin role; the permissive policies are OR-ed and deny by default,
and the admin test is the EXISTS subquery evaluated against the store
at the moment of the operation. -/
theorem c8_read_policy_characterization (db : DB) (authUid : String)
    (row : Profile) :
    canSelect db authUid row = true ↔
      (authUid = row.user_id
        ∨ ∃ p ∈ db, p.user_id = authUid ∧ p.role = "admin") := by
  simp [canSelect, List.any_eq_true]

/-- A profile that has already been submitted: `form_step = 2`,
`is_form_submitted = true`, pass id `AB12CD` already issued. -/
def c1Profile : Profile :=
  { newProfile "u1" "a@x.com" 0 with
      name := some "Asha Rao"
      contact := some "9876543210"
      gender := some "female"
      dob := some "2000-01-01"
      age := some 24
      district := some "Pune"
      category := some "OBC"
      highest_qualification := some "B.Sc."
      form_step := 2
      is_form_submitted := true
      user_pass_id := some "AB12CD" }

/-- A Step-1 edit with a changed name, re-played on the submitted
profile. -/
def c1Edit : Step1Data := { dAsha with name := "Changed Name" }

/-- Claim C1, evaluated at the failing input: the profile `c1Profile`
is already submitted with pass id `AB12CD`, yet the review page load
guard admits it (it only checks `form_step < 2`), a second confirmed
submission issues the fresh pass id `999999` and overwrites the stored
one, and a Step-1 re-save through the registration form changes the
user-editable `name` field of the submitted profile.  This contradicts
the post-submission immutability the claim states (and the dialog text
of the review page itself). -/
theorem c1_submitted_profile_mutable_bug :
    c1Profile.is_form_submitted = true
      ∧ c1Profile.user_pass_id = some "AB12CD"
      ∧ reviewLoadProfile [c1Profile] "u1" = ReviewLoad.loaded c1Profile
      ∧ (handleSave [c1Profile] "u1" zStream 1 9).2 = Except.ok "999999"
      ∧ (∀ q ∈ (handleSave [c1Profile] "u1" zStream 1 9).1,
          q.user_pass_id = some "999999" ∧ q.user_pass_id ≠ some "AB12CD")
      ∧ step1Valid c1Edit = true
      ∧ (∀ q ∈ (submitStep1 [c1Profile] "u1" c1Edit 1 true 10).1,
          q.name = some "Changed Name" ∧ q.name ≠ c1Profile.name) :=
  ⟨rfl, rfl, rfl, rfl, by decide, by decide, by decide⟩

/-- A plain-role profile owned by identity `u2`. -/
def c2User : Profile := newProfile "u2" "b@x.com" 0

/-- The same row with `role` rewritten to `admin` by its owner. -/
def c2Escalated : Profile := { c2User with role := "admin" }

/-- Counterexample to claim C2: the UPDATE policy on `profiles` checks
only row ownership (USING `auth.uid() = user_id`, no WITH CHECK on
`role`), so a non-admin self-service update that sets `role = admin` on
the owner's own row is allowed by the access policy layer, not
rejected. -/
theorem c2_role_escalation_allowed :
    c2User.role = "user"
      ∧ c2Escalated.role = "admin"
      ∧ c2Escalated.user_id = c2User.user_id
      ∧ rlsUpdateAllowed "u2" c2User c2Escalated = true := by
  decide

/-- Claim C2 as amended: the access policy layer allows a self-service
update exactly when the old and new rows belong to the requester and
the CHECK constraints hold — in particular it does not reject
`role = admin` — while the registration form flow itself never writes
`role`: every row produced by a step save keeps the role of a stored
row or carries the default role `user`. -/
theorem c2_amended_policy_ownership_only :
    (∀ (authUid : String) (oldRow newRow : Profile),
      rlsUpdateAllowed authUid oldRow newRow = true ↔
        (authUid = oldRow.user_id ∧ authUid = newRow.user_id
          ∧ categoryOk newRow.category = true ∧ roleOk newRow.role = true))
      ∧ (∀ (db : DB) (uid : String) (d : Step1Data) (now : Nat),
          ∀ q ∈ saveStep1 db uid d now,
            (∃ p ∈ db, q.role = p.role) ∨ q.role = "user")
      ∧ (∀ (db : DB) (uid : String) (d1 : Step1Data) (d2 : Step2Data)
          (now : Nat),
          ∀ q ∈ saveStep12 db uid d1 d2 now,
            (∃ p ∈ db, q.role = p.role) ∨ q.role = "user") := by
  refine ⟨?_, ?_, ?_⟩
  · intro authUid oldRow newRow
    simp [rlsUpdateAllowed, and_assoc]
  · intro db uid d now q hq
    rcases mem_upsertBy hq with ⟨p, hp, hqe, _⟩ | ⟨p, hp, hqe, _⟩ | hqe
    · exact Or.inl ⟨p, hp, by rw [hqe]; rfl⟩
    · exact Or.inl ⟨p, hp, by rw [hqe]⟩
    · exact Or.inr (by rw [hqe]; rfl)
  · intro db uid d1 d2 now q hq
    rcases mem_upsertBy hq with ⟨p, hp, hqe, _⟩ | ⟨p, hp, hqe, _⟩ | hqe
    · exact Or.inl ⟨p, hp, by rw [hqe]; rfl⟩
    · exact Or.inl ⟨p, hp, by rw [hqe]⟩
    · exact Or.inr (by rw [hqe]; rfl)

/-- Witness for the amended C2, at the concrete escalated update and a
concrete Step-1 save over the store `[c2User]`. -/
theorem c2_amended_witness :
    (rlsUpdateAllowed "u2" c2User c2Escalated = true ↔
      ("u2" = c2User.user_id ∧ "u2" = c2Escalated.user_id
        ∧ categoryOk c2Escalated.category = true
        ∧ roleOk c2Escalated.role = true))
      ∧ ((∃ p ∈ [c2User], (applyStep1 dAsha 5 c2User).role = p.role)
          ∨ (applyStep1 dAsha 5 c2User).role = "user") :=
  ⟨c2_amended_policy_ownership_only.1 "u2" c2User c2Escalated,
    c2_amended_policy_ownership_only.2.1 [c2User] "u2" dAsha 5
      (applyStep1 dAsha 5 c2User) (by decide)⟩

/-- Two ready-for-review profiles competing for submission. -/
def c4Db : DB :=
  [ { newProfile "c4u1" "p@x.com" 0 with form_step := 2 },
    { newProfile "c4u2" "q@x.com" 0 with form_step := 2 } ]

/-- The store after the first session commits pass id `AAAAAA` for
`c4u1`. -/
def c4AfterA : DB :=
  match commitPass c4Db "c4u1" "AAAAAA" 3 with
  | Except.ok d => d
  | Except.error _ => []

/-- The store after the second session instead commits `BBBBBB` for
`c4u2` on top of `c4AfterA`. -/
def c4AfterB : DB :=
  match commitPass c4AfterA "c4u2" "BBBBBB" 4 with
  | Except.ok d => d
  | Except.error _ => []

/-- Counterexample to claim C4: two concurrent submissions that both
run `generate_user_pass_id` against the same store snapshot obtain the
same candidate `AAAAAA` (issuance is check-then-return, not reserve);
the first commit succeeds, and the second commit of the same candidate
is rejected by the UNIQUE constraint with a duplicate-key error — there
is no retry with a fresh candidate, so N concurrent issuances need not
yield N distinct values. -/
theorem c4_concurrent_issuance_duplicate :
    generate_user_pass_id (persistedIds c4Db) aStream 1 0 = some "AAAAAA"
      ∧ generate_user_pass_id (persistedIds c4Db) aStream 5 0 = some "AAAAAA"
      ∧ commitPass c4Db "c4u1" "AAAAAA" 3 = Except.ok c4AfterA
      ∧ (commitPass c4AfterA "c4u2" "AAAAAA" 4).toOption = none
      ∧ (handleSave c4AfterA "c4u2" aStream 1 4).1 = c4AfterA := by
  exact ⟨rfl, rfl, rfl, rfl, rfl⟩

/-- Claim C4 as amended: the UNIQUE constraint on `user_pass_id` is
what prevents a double commit — a commit of a candidate already held by
another row is rejected with a duplicate-key error, and when two
submissions both commit successfully their identifiers are necessarily
distinct; but a rejected commit surfaces the error instead of retrying
with a fresh candidate, and concurrent issuances themselves may return
equal candidates. -/
theorem c4_amended_commit_unique :
    (∀ (db : DB) (uid cv : String) (n : Nat),
      (∃ p ∈ db, p.user_id ≠ uid ∧ p.user_pass_id = some cv) →
        commitPass db uid cv n
          = Except.error "duplicate key value violates unique constraint")
      ∧ (∀ (db db1 db2 : DB) (uid1 uid2 cv1 cv2 : String) (n1 n2 : Nat),
          (∃ p ∈ db, p.user_id = uid1) → uid1 ≠ uid2 →
          commitPass db uid1 cv1 n1 = Except.ok db1 →
          commitPass db1 uid2 cv2 n2 = Except.ok db2 →
          cv1 ≠ cv2) := by
  constructor
  · intro db uid cv n ⟨p, hp, hne, hpass⟩
    unfold commitPass
    rw [if_pos]
    exact List.any_eq_true.mpr ⟨p, hp, by simp [hne, hpass]⟩
  · intro db db1 db2 uid1 uid2 cv1 cv2 n1 n2 ⟨p, hp, hpu⟩ hne h1 h2 heq
    subst heq
    unfold commitPass at h1 h2
    by_cases hdup1 : db.any
        (fun q => q.user_id ≠ uid1 && q.user_pass_id = some cv1) = true
    · rw [if_pos hdup1] at h1
      exact absurd h1 (by simp)
    · rw [if_neg hdup1] at h1
      have hdb1 : db1 = db.map (fun q =>
          if q.user_id = uid1 then
            { q with is_form_submitted := true
                     user_pass_id := some cv1
                     updated_at := n1 }
          else q) := by
        simpa using h1.symm
      have hmem : ({ p with is_form_submitted := true
                            user_pass_id := some cv1
                            updated_at := n1 } : Profile) ∈ db1 := by
        rw [hdb1]
        refine List.mem_map.mpr ⟨p, hp, ?_⟩
        rw [if_pos hpu]
      by_cases hdup2 : db1.any
          (fun q => q.user_id ≠ uid2 && q.user_pass_id = some cv1) = true
      · rw [if_pos hdup2] at h2
        exact absurd h2 (by simp)
      · exact hdup2 (List.any_eq_true.mpr
          ⟨_, hmem, by simp [hpu, hne]⟩)

/-- Witness for the amended C4: the conflicting commit of `AAAAAA` for
`c4u2` is rejected with the duplicate-key error, and the two
successfully committed identifiers `AAAAAA` and `BBBBBB` are distinct. -/
theorem c4_amended_witness :
    commitPass c4AfterA "c4u2" "AAAAAA" 4
        = Except.error "duplicate key value violates unique constraint"
      ∧ "AAAAAA" ≠ "BBBBBB" := by
  constructor
  · exact c4_amended_commit_unique.1 c4AfterA "c4u2" "AAAAAA" 4
      ⟨{ (newProfile "c4u1" "p@x.com" 0) with
            form_step := 2
            is_form_submitted := true
            user_pass_id := some "AAAAAA"
            updated_at := 3 },
        by decide, by decide, by decide⟩
  · exact c4_amended_commit_unique.2 c4Db c4AfterA c4AfterB
      "c4u1" "c4u2" "AAAAAA" "BBBBBB" 3 4
      ⟨{ newProfile "c4u1" "p@x.com" 0 with form_step := 2 },
        by decide, by decide⟩
      (by decide) rfl rfl

theorem reviewLoad_guard {db : DB} {uid : String} {p : Profile}
    (h : reviewLoadProfile db uid = ReviewLoad.loaded p) :
    2 ≤ p.form_step := by
  cases hf : findProfile db uid with
  | none => simp [reviewLoadProfile, hf] at h
  | some p2 =>
    simp only [reviewLoadProfile, hf] at h
    by_cases hstep : p2.form_step < 2
    · rw [if_pos hstep] at h
      exact absurd h (by simp)
    · rw [if_neg hstep] at h
      obtain rfl : p2 = p := by simpa using h
      omega

theorem any_uid_upsertBy (db : DB) (uid : String) (f : Profile → Profile)
    (mk : Profile) (hf : ∀ p : Profile, (f p).user_id = p.user_id)
    (hmk : mk.user_id = uid) :
    (upsertBy db uid f mk).any (fun p => p.user_id = uid) = true := by
  unfold upsertBy
  by_cases hany : db.any (fun p => p.user_id = uid) = true
  · rw [if_pos hany]
    obtain ⟨p, hp, hpu⟩ := List.any_eq_true.mp hany
    refine List.any_eq_true.mpr
      ⟨if p.user_id = uid then f p else p, List.mem_map.mpr ⟨p, hp, rfl⟩, ?_⟩
    simp only [decide_eq_true_eq] at hpu
    simp [hpu, hf p]
  · rw [if_neg hany]
    exact List.any_eq_true.mpr
      ⟨mk, List.mem_append.mpr (Or.inr (by simp)), by simp [hmk]⟩

theorem saveStep1_fields {db : DB} {uid : String} {d : Step1Data}
    {now : Nat} {q : Profile} (hq : q ∈ saveStep1 db uid d now)
    (hu : q.user_id = uid) :
    q.email = some d.email ∧ q.name = some d.name
      ∧ q.contact = some d.contact ∧ q.gender = some d.gender
      ∧ q.dob = some d.dob ∧ q.form_step = 1 ∧ q.updated_at = now
      ∧ q.user_pass_id ∈ db.map (fun p => p.user_pass_id) ++ [none] := by
  rcases mem_upsertBy hq with ⟨p, hp, hqe, _⟩ | ⟨p, hp, hqe, hpu⟩ | hqe
  · subst hqe
    exact ⟨rfl, rfl, rfl, rfl, rfl, rfl, rfl,
      List.mem_append.mpr (Or.inl (List.mem_map.mpr ⟨p, hp, rfl⟩))⟩
  · subst hqe
    exact absurd hu hpu
  · subst hqe
    exact ⟨rfl, rfl, rfl, rfl, rfl, rfl, rfl,
      List.mem_append.mpr (Or.inr (by simp [newProfile, applyStep1]))⟩

theorem saveStep12_fields {db : DB} {uid : String} {d1 : Step1Data}
    {d2 : Step2Data} {now : Nat} {q : Profile}
    (hq : q ∈ saveStep12 db uid d1 d2 now) (hu : q.user_id = uid) :
    q.email = some d1.email ∧ q.name = some d1.name
      ∧ q.contact = some d1.contact ∧ q.gender = some d1.gender
      ∧ q.dob = some d1.dob ∧ q.age = some d2.age
      ∧ q.district = some d2.district ∧ q.category = some d2.category
      ∧ q.highest_qualification = some d2.highest_qualification
      ∧ q.passport_photo_url = some d2.passport_photo_url
      ∧ q.form_step = 2 := by
  rcases mem_upsertBy hq with ⟨p, hp, hqe, _⟩ | ⟨p, hp, hqe, hpu⟩ | hqe
  · subst hqe
    exact ⟨rfl, rfl, rfl, rfl, rfl, rfl, rfl, rfl, rfl, rfl, rfl⟩
  · subst hqe
    exact absurd hu hpu
  · subst hqe
    exact ⟨rfl, rfl, rfl, rfl, rfl, rfl, rfl, rfl, rfl, rfl, rfl⟩

/-- Claim C5: the review page only admits a profile with
`form_step ≥ 2` (otherwise it redirects back to the form); any failed
submission — pass-id issuance failure or rejected update — leaves the
store unchanged; a successful submission sets `is_form_submitted` and
the issued pass id together in the single update; and no submission run
can produce a row with `is_form_submitted = true` and a null
`user_pass_id` when none existed before. -/
theorem c5_submit_guard_and_atomicity (db : DB) (uid : String)
    (r : Nat → Fin 36) (fuel now : Nat) :
    (∀ p, reviewLoadProfile db uid = ReviewLoad.loaded p → 2 ≤ p.form_step)
      ∧ (∀ e, (handleSave db uid r fuel now).2 = Except.error e →
          (handleSave db uid r fuel now).1 = db)
      ∧ (∀ c, (handleSave db uid r fuel now).2 = Except.ok c →
          ∀ q ∈ (handleSave db uid r fuel now).1, q.user_id = uid →
            q.is_form_submitted = true ∧ q.user_pass_id = some c)
      ∧ ((∀ p ∈ db, p.is_form_submitted = true → p.user_pass_id ≠ none) →
          ∀ q ∈ (handleSave db uid r fuel now).1,
            q.is_form_submitted = true → q.user_pass_id ≠ none) := by
  refine ⟨fun p h => reviewLoad_guard h, ?_, ?_, ?_⟩
  · intro e he
    cases hg : generate_user_pass_id (persistedIds db) r fuel 0 with
    | none => simp [handleSave, hg]
    | some cand =>
      simp only [handleSave, hg] at he ⊢
      unfold commitPass at he ⊢
      by_cases hdup : (db.any
          (fun q => q.user_id ≠ uid && q.user_pass_id = some cand)) = true
      · rw [if_pos hdup]
      · rw [if_neg hdup] at he
        exact absurd he (by simp)
  · intro c hc q hq hu
    cases hg : generate_user_pass_id (persistedIds db) r fuel 0 with
    | none => simp [handleSave, hg] at hc
    | some cand =>
      simp only [handleSave, hg] at hc hq
      unfold commitPass at hc hq
      by_cases hdup : (db.any
          (fun q => q.user_id ≠ uid && q.user_pass_id = some cand)) = true
      · rw [if_pos hdup] at hc
        exact absurd hc (by simp)
      · rw [if_neg hdup] at hc hq
        dsimp only at hc hq
        obtain rfl : cand = c := by simpa using hc
        obtain ⟨p, _, hqe⟩ := List.mem_map.mp hq
        by_cases hpu : p.user_id = uid
        · rw [if_pos hpu] at hqe
          subst hqe
          exact ⟨rfl, rfl⟩
        · rw [if_neg hpu] at hqe
          subst hqe
          exact absurd hu hpu
  · intro hinv q hq
    cases hg : generate_user_pass_id (persistedIds db) r fuel 0 with
    | none =>
      simp only [handleSave, hg] at hq
      exact hinv q hq
    | some cand =>
      simp only [handleSave, hg] at hq
      unfold commitPass at hq
      by_cases hdup : (db.any
          (fun q => q.user_id ≠ uid && q.user_pass_id = some cand)) = true
      · rw [if_pos hdup] at hq
        dsimp only at hq
        exact hinv q hq
      · rw [if_neg hdup] at hq
        dsimp only at hq
        obtain ⟨p, hp, hqe⟩ := List.mem_map.mp hq
        by_cases hpu : p.user_id = uid
        · rw [if_pos hpu] at hqe
          subst hqe
          intro _
          simp
        · rw [if_neg hpu] at hqe
          subst hqe
          exact hinv p hp

/-- Witness for C5 at the store `[c1Profile]`, the always-9 stream and
fuel 1: the loaded review profile has `form_step ≥ 2`, and after the
successful submission every row of the result owned by `u1` carries
`is_form_submitted = true` with the issued pass id. -/
theorem c5_witness :
    2 ≤ c1Profile.form_step
      ∧ (∀ q ∈ (handleSave [c1Profile] "u1" zStream 1 9).1,
          q.user_id = "u1" →
            q.is_form_submitted = true ∧ q.user_pass_id = some "999999") :=
  ⟨(c5_submit_guard_and_atomicity [c1Profile] "u1" zStream 1 9).1
      c1Profile (by decide),
    (c5_submit_guard_and_atomicity [c1Profile] "u1" zStream 1 9).2.2.1
      "999999" rfl⟩

/-- Claim C6: a valid Step-1 submission persists exactly the submitted
field values with `form_step = 1`; a valid Step-2 submission persists
the merged Step-1 + Step-2 data with `form_step = 2`; an invalid
submission of either step performs no save at all — the store and the
controller step are unchanged, so nothing is partially persisted. -/
theorem c6_step_saves :
    (∀ (db : DB) (uid : String) (d : Step1Data) (cur now : Nat),
      step1Valid d = true →
        (submitStep1 db uid d cur true now).1 = saveStep1 db uid d now
        ∧ (saveStep1 db uid d now).any (fun p => p.user_id = uid) = true
        ∧ (∀ q ∈ saveStep1 db uid d now, q.user_id = uid →
            q.email = some d.email ∧ q.name = some d.name
              ∧ q.contact = some d.contact ∧ q.gender = some d.gender
              ∧ q.dob = some d.dob ∧ q.form_step = 1))
      ∧ (∀ (db : DB) (uid : String) (d1 : Step1Data) (d2 : Step2Data)
          (now : Nat),
          step2Valid d2 = true →
            (submitStep2 db uid d1 d2 true now).1 = saveStep12 db uid d1 d2 now
            ∧ (saveStep12 db uid d1 d2 now).any
                (fun p => p.user_id = uid) = true
            ∧ (∀ q ∈ saveStep12 db uid d1 d2 now, q.user_id = uid →
                q.email = some d1.email ∧ q.name = some d1.name
                  ∧ q.contact = some d1.contact ∧ q.gender = some d1.gender
                  ∧ q.dob = some d1.dob ∧ q.age = some d2.age
                  ∧ q.district = some d2.district
                  ∧ q.category = some d2.category
                  ∧ q.highest_qualification = some d2.highest_qualification
                  ∧ q.passport_photo_url = some d2.passport_photo_url
                  ∧ q.form_step = 2))
      ∧ (∀ (db : DB) (uid : String) (d : Step1Data) (cur now : Nat)
          (w : Bool), step1Valid d = false →
            submitStep1 db uid d cur w now = (db, cur))
      ∧ (∀ (db : DB) (uid : String) (d1 : Step1Data) (d2 : Step2Data)
          (now : Nat) (w : Bool), step2Valid d2 = false →
            submitStep2 db uid d1 d2 w now = (db, false)) := by
  refine ⟨?_, ?_, ?_, ?_⟩
  · intro db uid d cur now hv
    refine ⟨by simp [submitStep1, hv], ?_, ?_⟩
    · exact any_uid_upsertBy db uid _ _ (fun p => rfl) rfl
    · intro q hq hu
      obtain ⟨h1, h2, h3, h4, h5, h6, -⟩ := saveStep1_fields hq hu
      exact ⟨h1, h2, h3, h4, h5, h6⟩
  · intro db uid d1 d2 now hv
    refine ⟨by simp [submitStep2, hv], ?_, ?_⟩
    · exact any_uid_upsertBy db uid _ _ (fun p => rfl) rfl
    · intro q hq hu
      exact saveStep12_fields hq hu
  · intro db uid d cur now w hv
    simp [submitStep1, hv]
  · intro db uid d1 d2 now w hv
    simp [submitStep2, hv]

/-- Witness for C6 at the end-to-end scenario inputs of the spec: the
valid Step-1 data of Asha saves with `form_step = 1` over the empty
store, and the length-5 contact is rejected without any save. -/
theorem c6_witness :
    ((saveStep1 [] "u1" dAsha 5).any (fun p => p.user_id = "u1") = true)
      ∧ (∀ q ∈ saveStep1 [] "u1" dAsha 5, q.user_id = "u1" →
          q.email = some dAsha.email ∧ q.name = some dAsha.name
            ∧ q.contact = some dAsha.contact ∧ q.gender = some dAsha.gender
            ∧ q.dob = some dAsha.dob ∧ q.form_step = 1)
      ∧ submitStep1 [] "u1" dBadContact 0 true 5 = ([], 0)
      ∧ submitStep2 [] "u1" dAsha { d2Asha with age := 12 } true 6
          = ([], false) :=
  ⟨((c6_step_saves.1) [] "u1" dAsha 1 5 (by decide)).2.1,
    ((c6_step_saves.1) [] "u1" dAsha 1 5 (by decide)).2.2,
    (c6_step_saves.2.2.1) [] "u1" dBadContact 0 5 true (by decide),
    (c6_step_saves.2.2.2) [] "u1" dAsha { d2Asha with age := 12 } 6 true
      (by decide)⟩

/-- A profile whose owner has already completed Step 2. -/
def c7Profile : Profile :=
  { newProfile "u7" "c@x.com" 0 with
      name := some "Asha Rao"
      form_step := 2 }

/-- Counterexample to claim C7: `saveStep` always writes
`form_step := stepNumber`, so re-saving Step 1 through the normal flow
(back-navigate, then press the next-step button again) on a profile
whose `form_step` is already 2 lowers `form_step` to 1 — `form_step`
does not only increase. -/
theorem c7_form_step_regression :
    c7Profile.form_step = 2
      ∧ step1Valid dAsha = true
      ∧ ((saveStep1 [c7Profile] "u7" dAsha 5).any
          (fun p => p.user_id = "u7") = true)
      ∧ (∀ q ∈ saveStep1 [c7Profile] "u7" dAsha 5, q.form_step = 1) := by
  decide

/-- Claim C7 as amended: re-saving Step 1 with identical data is
idempotent on progress — the stored row keeps `form_step` and
`user_pass_id` and its `updated_at` advances to the later write time —
but `form_step` does not only increase: a Step-1 re-save after
`form_step` reached 2 rewrites it to 1 (see the counterexample), since
`saveStep` always writes the step number of the saved step. -/
theorem c7_amended_idempotent_resave (db : DB) (uid : String)
    (d : Step1Data) (n1 n2 : Nat) (q1 : Profile) (hlt : n1 < n2)
    (h : findProfile (saveStep1 db uid d n1) uid = some q1) :
    findProfile (saveStep1 (saveStep1 db uid d n1) uid d n2) uid
        = some (applyStep1 d n2 q1)
      ∧ (applyStep1 d n2 q1).form_step = q1.form_step
      ∧ (applyStep1 d n2 q1).user_pass_id = q1.user_pass_id
      ∧ q1.updated_at < (applyStep1 d n2 q1).updated_at := by
  obtain ⟨hmem, hu⟩ := findProfile_mem h
  obtain ⟨-, -, -, -, -, hstep, hupd, -⟩ := saveStep1_fields hmem hu
  refine ⟨?_, ?_, rfl, ?_⟩
  · exact findProfile_upsertBy_found (fun p => rfl) h
  · show (1 : Nat) = q1.form_step
    omega
  · show q1.updated_at < n2
    omega

/-- The row stored by the first Step-1 save over the empty store. -/
def c7FirstSave : Profile :=
  applyStep1 dAsha 5 (newProfile "u1" dAsha.email 5)

/-- Witness for the amended C7: a concrete double Step-1 save over the
empty store, with write times 5 then 6. -/
theorem c7_amended_witness :
    findProfile (saveStep1 (saveStep1 [] "u1" dAsha 5) "u1" dAsha 6) "u1"
        = some (applyStep1 dAsha 6 c7FirstSave)
      ∧ (applyStep1 dAsha 6 c7FirstSave).form_step = c7FirstSave.form_step
      ∧ (applyStep1 dAsha 6 c7FirstSave).user_pass_id
          = c7FirstSave.user_pass_id
      ∧ c7FirstSave.updated_at < (applyStep1 dAsha 6 c7FirstSave).updated_at :=
  c7_amended_idempotent_resave [] "u1" dAsha 5 6 c7FirstSave (by decide)
    (by decide)

/-- Counterexample to claim C9: with a failing persistence write
(`writeOk = false`) a valid Step-1 submission leaves the store intact,
yet the controller still advances to Step 2, and a valid Step-2
submission still navigates to the review page — the controller does
advance on a failed save (`saveStep` swallows the error and
`onStep1Submit` and `onStep2Submit` continue unconditionally). -/
theorem c9_advance_despite_failed_save :
    step1Valid dAsha = true
      ∧ submitStep1 [] "u9" dAsha 1 false 5 = ([], 2)
      ∧ step2Valid d2Asha = true
      ∧ submitStep2 [] "u9" dAsha d2Asha false 6 = ([], true) := by
  decide

/-- Claim C9 as amended: a failed step save leaves the prior persisted
state fully intact (no partial commit of the step's field set), but the
controller advances to the next step or to the review navigation even
when the write failed; only the review page's own load guard sends the
user back when the persisted `form_step` is below 2. -/
theorem c9_amended_failed_save_intact :
    (∀ (db : DB) (uid : String) (d : Step1Data) (cur now : Nat),
      (submitStep1 db uid d cur false now).1 = db)
      ∧ (∀ (db : DB) (uid : String) (d : Step1Data) (cur now : Nat),
          step1Valid d = true → submitStep1 db uid d cur false now = (db, 2))
      ∧ (∀ (db : DB) (uid : String) (d1 : Step1Data) (d2 : Step2Data)
          (now : Nat), (submitStep2 db uid d1 d2 false now).1 = db)
      ∧ (∀ (db : DB) (uid : String) (d1 : Step1Data) (d2 : Step2Data)
          (now : Nat), step2Valid d2 = true →
            submitStep2 db uid d1 d2 false now = (db, true))
      ∧ (∀ (db : DB) (uid : String) (p : Profile),
          reviewLoadProfile db uid = ReviewLoad.loaded p → 2 ≤ p.form_step) := by
  refine ⟨?_, ?_, ?_, ?_, fun db uid p h => reviewLoad_guard h⟩
  · intro db uid d cur now
    by_cases hv : step1Valid d = true <;> simp [submitStep1, hv]
  · intro db uid d cur now hv
    simp [submitStep1, hv]
  · intro db uid d1 d2 now
    by_cases hv : step2Valid d2 = true <;> simp [submitStep2, hv]
  · intro db uid d1 d2 now hv
    simp [submitStep2, hv]

/-- Witness for the amended C9 at concrete failing saves. -/
theorem c9_amended_witness :
    submitStep1 [c7Profile] "u7" dAsha 1 false 8 = ([c7Profile], 2)
      ∧ submitStep2 [c7Profile] "u7" dAsha d2Asha false 8
          = ([c7Profile], true)
      ∧ 2 ≤ c7Profile.form_step :=
  ⟨c9_amended_failed_save_intact.2.1 [c7Profile] "u7" dAsha 1 8 (by decide),
    c9_amended_failed_save_intact.2.2.2.1 [c7Profile] "u7" dAsha d2Asha 8
      (by decide),
    c9_amended_failed_save_intact.2.2.2.2 [c7Profile] "u7" c7Profile
      (by decide)⟩

/-- A 1000-byte png selected by user `u10`. -/
def c10Png : UploadedFile := { name := "photo.png", size := 1000, content := 1 }

/-- An oversized file, one byte over the client-side limit. -/
def c10Big : UploadedFile :=
  { name := "big.png", size := 1024 * 1024 + 1, content := 7 }

/-- Claim C10, evaluated at the failing input: the over-1MB file is
rejected client-side with no upload attempted, as claimed; but for the
valid 1000-byte `photo.png` the client uploads to the folderless key
`u10.png`, whose folder array is empty, so the INSERT policy of the
`passport-photos` bucket — shipped in the same migration as the
profiles table — denies the write (it requires the first folder of the
object name to equal the uploader's id, as `u10/photo.png` would).
`handleFileUpload` therefore throws, the bucket is unchanged, and
`passport_photo_url` is never set: the upload-success half of the
claim is unreachable in the program. -/
theorem c10_upload_denied_bug :
    onPhotoSelected [] "" "u10" c10Big
        = ([], "", PhotoOutcome.rejectedTooLarge)
      ∧ fileExt c10Png.name = "png"
      ∧ foldername "u10.png" = []
      ∧ storageInsertAllowed "u10" "u10.png" = false
      ∧ storageInsertAllowed "u10" "u10/photo.png" = true
      ∧ onPhotoSelected [] "" "u10" c10Png
          = ([], "", PhotoOutcome.uploadFailed
              "new row violates row-level security policy") := by
  decide

end AegPortal
